import Mathlib

/-!
Shallow embedding of the session controller in `src/app/mining/page.tsx`
(the `MiningDashboard` React component of this repository).

The component keeps seven pieces of React state (`isMining`, `progress`,
`hashRate`, `totalMined`, `customWallet`, `message`, `isLoading`), exposes
three async handlers (`startMining`, `stopMining`, `deposit`) over a single
command-style endpoint, and runs a polling `setInterval` effect keyed on
`isMining`.  We embed each handler as a pure function from the remote
outcome and the current state to the next state together with the list of
network requests the handler issued.  The polling effect and component
teardown are embedded as a labelled transition system over a system state
that pairs the controller state with a `timerLive` flag.

JavaScript numbers carry no arithmetic in this file's logic (values are
stored verbatim from responses, compared with `<= 0`, or reset to the
literal `0`), so they are modelled as rationals.
-/

namespace Mining

/-- Character class `[a-km-zA-HJ-NP-Z1-9]` of `walletAddressRegex`
(`page.tsx` line 15), expressed on Unicode code points: lowercase except
`l`, uppercase except `I` and `O`, digits except `0`. -/
def isBase58Char (c : Char) : Bool :=
  decide (('a'.toNat ≤ c.toNat ∧ c.toNat ≤ 'k'.toNat) ∨
    ('m'.toNat ≤ c.toNat ∧ c.toNat ≤ 'z'.toNat) ∨
    ('A'.toNat ≤ c.toNat ∧ c.toNat ≤ 'H'.toNat) ∨
    ('J'.toNat ≤ c.toNat ∧ c.toNat ≤ 'N'.toNat) ∨
    ('P'.toNat ≤ c.toNat ∧ c.toNat ≤ 'Z'.toNat) ∨
    ('1'.toNat ≤ c.toNat ∧ c.toNat ≤ '9'.toNat))

/-- The test `/^[13][a-km-zA-HJ-NP-Z1-9]{25,34}$/.test(s)` from
`page.tsx` line 15: a first character `1` or `3` followed by 25 to 34
characters of the class above. -/
def walletAddressRegex (s : String) : Bool :=
  match s.data with
  | [] => false
  | c :: rest =>
    (c == '1' || c == '3') &&
    (decide (25 ≤ rest.length) && decide (rest.length ≤ 34)) &&
    rest.all isBase58Char

/-- The spec's wording of a base58-safe character: an alphanumeric ASCII
character that is none of `0`, `O`, `I`, `l`.  Written from the spec's
words, to be compared with `isBase58Char` which is written from the
source regex. -/
def base58SafeSpec (c : Char) : Bool :=
  decide ((('0'.toNat ≤ c.toNat ∧ c.toNat ≤ '9'.toNat) ∨
    ('A'.toNat ≤ c.toNat ∧ c.toNat ≤ 'Z'.toNat) ∨
    ('a'.toNat ≤ c.toNat ∧ c.toNat ≤ 'z'.toNat)) ∧
    ¬(c.toNat = '0'.toNat ∨ c.toNat = 'O'.toNat ∨
      c.toNat = 'I'.toNat ∨ c.toNat = 'l'.toNat))

/-- The spec's wording of address validity: 26 to 35 characters, first
character `1` or `3`, every character base58-safe.  Written from the
spec's words, to be compared with `walletAddressRegex`. -/
def claimValidAddress (s : String) : Bool :=
  decide (26 ≤ s.length) && decide (s.length ≤ 35) &&
  (match s.data with
   | [] => false
   | c :: _ => c == '1' || c == '3') &&
  s.data.all base58SafeSpec

/-- The `type` discriminant of the `message` state:
`{ type: 'error' | 'success'; text: string }`. -/
inductive MsgType where
  | error
  | success
deriving DecidableEq, Repr

/-- The `message` React state value of `MiningDashboard`. -/
structure Message where
  type : MsgType
  text : String
deriving DecidableEq, Repr

/-- The React state of `MiningDashboard`: `isMining`, `progress`,
`hashRate`, `totalMined`, `customWallet`, `message`, `isLoading`. -/
structure MiningState where
  isMining : Bool
  progress : ℚ
  hashRate : ℚ
  totalMined : ℚ
  customWallet : String
  message : Option Message
  isLoading : Bool
deriving DecidableEq, Repr

/-- The initial React state: `useState(false)`, `useState(0)`,
`useState(0)`, `useState(0)`, `useState('')`, `useState(null)`,
`useState(false)`. -/
def initState : MiningState :=
  { isMining := false, progress := 0, hashRate := 0, totalMined := 0,
    customWallet := "", message := none, isLoading := false }

/-- A request body sent to `/api/mining`, discriminated by its `action`
field; the deposit body additionally carries the wallet string. -/
inductive MiningRequest where
  | start
  | stop
  | status
  | deposit (wallet : String)
deriving DecidableEq, Repr

/-- Outcome of a start or stop fetch: the code only inspects `res.ok`,
and a thrown transport error lands in the `catch` block. -/
inductive ReqOutcome where
  | ok
  | notOk
  | transportError
deriving DecidableEq, Repr

/-- Outcome of a status fetch: an ok response carries the
`{ progress, hashRate, totalMined }` body the code reads. -/
inductive StatusOutcome where
  | ok (progress hashRate totalMined : ℚ)
  | notOk
  | transportError
deriving DecidableEq, Repr

/-- Outcome of a deposit fetch: both the ok and the non-ok branch read an
optional `message` field from the response body. -/
inductive DepositOutcome where
  | ok (message : Option String)
  | notOk (message : Option String)
  | transportError
deriving DecidableEq, Repr

/-- The `startMining` handler (`page.tsx` lines 55-74): set `isLoading`,
clear `message`, issue `{ action: 'start' }`; on ok set `isMining` and a
success message, on a non-ok response or a thrown error post an error
message; finally clear `isLoading`.  Returns the next state and the
requests issued. -/
def startMining (o : ReqOutcome) (s : MiningState) :
    MiningState × List MiningRequest :=
  let s1 := { s with isLoading := true, message := none }
  let s2 :=
    match o with
    | .ok =>
        { s1 with isMining := true, message := some ⟨.success, "Mining started."⟩ }
    | .notOk => { s1 with message := some ⟨.error, "Failed to start mining."⟩ }
    | .transportError =>
        { s1 with message := some ⟨.error, "Error starting mining."⟩ }
  ({ s2 with isLoading := false }, [MiningRequest.start])

/-- The `stopMining` handler (`page.tsx` lines 76-95), symmetric to
`startMining` with `{ action: 'stop' }` and `isMining := false` on ok. -/
def stopMining (o : ReqOutcome) (s : MiningState) :
    MiningState × List MiningRequest :=
  let s1 := { s with isLoading := true, message := none }
  let s2 :=
    match o with
    | .ok =>
        { s1 with isMining := false, message := some ⟨.success, "Mining stopped."⟩ }
    | .notOk => { s1 with message := some ⟨.error, "Failed to stop mining."⟩ }
    | .transportError =>
        { s1 with message := some ⟨.error, "Error stopping mining."⟩ }
  ({ s2 with isLoading := false }, [MiningRequest.stop])

/-- The `deposit` handler (`page.tsx` lines 97-122): clear `message`;
if `walletAddressRegex` rejects `customWallet`, post an error and return
without any fetch; otherwise set `isLoading`, issue
`{ action: 'deposit', wallet: customWallet }`, on ok post
`data.message || 'Deposit successful.'` and reset `totalMined` to 0, on
non-ok post `errData.message || 'Deposit failed.'`, on a thrown error
post a fixed error; finally clear `isLoading`. -/
def deposit (o : DepositOutcome) (s : MiningState) :
    MiningState × List MiningRequest :=
  let s0 := { s with message := none }
  if !walletAddressRegex s0.customWallet then
    ({ s0 with message := some ⟨.error, "Invalid Bitcoin wallet address."⟩ }, [])
  else
    let s1 := { s0 with isLoading := true }
    let s2 :=
      match o with
      | .ok m =>
          { s1 with message := some ⟨.success, m.getD "Deposit successful."⟩,
                    totalMined := 0 }
      | .notOk m => { s1 with message := some ⟨.error, m.getD "Deposit failed."⟩ }
      | .transportError =>
          { s1 with message := some ⟨.error, "Error during deposit."⟩ }
    ({ s2 with isLoading := false }, [MiningRequest.deposit s1.customWallet])

/-- One tick of the polling `setInterval` callback (`page.tsx` lines
30-48): issue `{ action: 'status' }`; on ok overwrite `progress`,
`hashRate`, `totalMined` with the response values; on a non-ok response
or a thrown error post an error message and touch nothing else. -/
def pollTick (o : StatusOutcome) (s : MiningState) :
    MiningState × List MiningRequest :=
  let s1 :=
    match o with
    | .ok p h t => { s with progress := p, hashRate := h, totalMined := t }
    | .notOk => { s with message := some ⟨.error, "Failed to fetch mining status."⟩ }
    | .transportError =>
        { s with message := some ⟨.error, "Error fetching mining status."⟩ }
  (s1, [MiningRequest.status])

/-- The polling interval passed to `setInterval`, in milliseconds. -/
def pollIntervalMs : Nat := 2000

/-- A click on the Start button: `disabled={isMining || isLoading}`, so a
click while disabled fires no handler. -/
def clickStart (o : ReqOutcome) (s : MiningState) :
    MiningState × List MiningRequest :=
  if s.isMining || s.isLoading then (s, []) else startMining o s

/-- A click on the Stop button: `disabled={!isMining || isLoading}`. -/
def clickStop (o : ReqOutcome) (s : MiningState) :
    MiningState × List MiningRequest :=
  if !s.isMining || s.isLoading then (s, []) else stopMining o s

/-- A click on the Deposit button:
`disabled={isLoading || totalMined <= 0}`. -/
def clickDeposit (o : DepositOutcome) (s : MiningState) :
    MiningState × List MiningRequest :=
  if s.isLoading || decide (s.totalMined ≤ 0) then (s, []) else deposit o s

/-- Typing into the wallet input: `onChange` stores the value;
`disabled={isLoading}` blocks input while a request is in flight. -/
def inputWallet (w : String) (s : MiningState) : MiningState :=
  if s.isLoading then s else { s with customWallet := w }

/-- System state: the controller state together with whether the polling
`setInterval` handle of the `useEffect` (`page.tsx` lines 27-53) is
currently live, and whether the component has been unmounted. -/
structure SysState where
  ctrl : MiningState
  timerLive : Bool
  tornDown : Bool
deriving DecidableEq, Repr

/-- Synchronisation performed by the polling `useEffect` after a render:
its cleanup clears any interval, and the effect body starts one exactly
when `isMining` holds, so afterwards the timer is live iff `isMining`. -/
def syncTimer (t : SysState) : SysState :=
  { t with timerLive := t.ctrl.isMining }

/-- A user-originated DOM event on the dashboard. -/
inductive UserEvent where
  | clickStart (o : ReqOutcome)
  | clickStop (o : ReqOutcome)
  | clickDeposit (o : DepositOutcome)
  | inputWallet (w : String)

/-- The controller-state effect of a user event. -/
def applyUser : UserEvent → MiningState → MiningState
  | .clickStart o, s => (clickStart o s).1
  | .clickStop o, s => (clickStop o s).1
  | .clickDeposit o, s => (clickDeposit o s).1
  | .inputWallet w, s => inputWallet w s

/-- One transition of the dashboard: a user event on a mounted component
(followed by the effect synchronisation React performs after the render),
a tick of a live polling timer, or component teardown (whose effect
cleanup clears the interval). -/
inductive Step : SysState → SysState → Prop where
  | user (e : UserEvent) (t : SysState) (h : t.tornDown = false) :
      Step t (syncTimer { t with ctrl := applyUser e t.ctrl })
  | tick (o : StatusOutcome) (t : SysState) (h : t.tornDown = false)
      (hl : t.timerLive = true) :
      Step t { t with ctrl := (pollTick o t.ctrl).1 }
  | teardown (t : SysState) :
      Step t { t with timerLive := false, tornDown := true }

/-- The freshly mounted dashboard: initial state, no timer. -/
def initSys : SysState :=
  { ctrl := initState, timerLive := false, tornDown := false }

/-- States the dashboard can reach from mount. -/
def Reachable (t : SysState) : Prop :=
  Relation.ReflTransGen Step initSys t

/-! ### Helper lemmas -/

/-- The source regex's character class coincides with the spec's
"base58-safe" wording. -/
theorem isBase58Char_eq (c : Char) : isBase58Char c = base58SafeSpec c := by
  simp only [isBase58Char, base58SafeSpec, decide_eq_decide,
    show 'a'.toNat = 97 from rfl, show 'k'.toNat = 107 from rfl,
    show 'm'.toNat = 109 from rfl, show 'z'.toNat = 122 from rfl,
    show 'A'.toNat = 65 from rfl, show 'H'.toNat = 72 from rfl,
    show 'J'.toNat = 74 from rfl, show 'N'.toNat = 78 from rfl,
    show 'P'.toNat = 80 from rfl, show 'Z'.toNat = 90 from rfl,
    show '1'.toNat = 49 from rfl, show '9'.toNat = 57 from rfl,
    show '0'.toNat = 48 from rfl, show 'O'.toNat = 79 from rfl,
    show 'I'.toNat = 73 from rfl, show 'l'.toNat = 108 from rfl]
  omega

/-- `1` and `3` belong to the regex's character class. -/
theorem isBase58Char_one_three {c : Char} (h : c = '1' ∨ c = '3') :
    isBase58Char c = true := by
  rcases h with h | h <;> subst h <;> decide

/-- The source regex equals the validity rule as the spec words it. -/
theorem walletAddressRegex_eq_claim (w : String) :
    walletAddressRegex w = claimValidAddress w := by
  rcases w with ⟨data⟩
  cases data with
  | nil => rfl
  | cons c rest =>
    have hall : rest.all base58SafeSpec = rest.all isBase58Char := by
      induction rest with
      | nil => rfl
      | cons x xs ih => simp [List.all_cons, ih, isBase58Char_eq]
    show walletAddressRegex ⟨c :: rest⟩ = claimValidAddress ⟨c :: rest⟩
    simp only [walletAddressRegex, claimValidAddress, List.all_cons, hall,
      String.length, List.length_cons]
    rcases h13 : (c == '1' || c == '3') with _ | _
    · simp
    · have hc : isBase58Char c = true := by
        rcases Bool.or_eq_true_iff.mp h13 with h | h <;>
          exact isBase58Char_one_three (Or.imp (beq_iff_eq.mp ·) (beq_iff_eq.mp ·)
            (by first | exact Or.inl h | exact Or.inr h))
      simp only [← isBase58Char_eq, hc, Bool.true_and, Bool.and_true]
      rcases hrest : rest.all isBase58Char with _ | _
      · simp
      · simp only [Bool.and_true, ← Bool.decide_and, decide_eq_decide]
        omega

/-- A poll tick never touches `isMining`. -/
theorem pollTick_isMining (o : StatusOutcome) (s : MiningState) :
    (pollTick o s).1.isMining = s.isMining := by
  cases o <;> rfl

/-- Timer invariant: in every reachable system state the polling timer is
live exactly when the component is mounted with `isMining` set. -/
theorem reachable_timer_eq (t : SysState) (h : Reachable t) :
    t.timerLive = (t.ctrl.isMining && !t.tornDown) := by
  induction h with
  | refl => rfl
  | tail hab hbc ih =>
    cases hbc with
    | user e u hu => simp [syncTimer, hu]
    | tick o u hu hl => simpa [pollTick_isMining] using ih
    | teardown u => simp

/-- The valid sample address used by the spec's testable properties. -/
def boatWallet : String := "1BoatSLRHtKNngkdXEeobR76b53LETtpyT"

/-- A state with a valid wallet entered and a positive accrued total. -/
def sampleState : MiningState :=
  { initState with customWallet := boatWallet, totalMined := 5 }

/-- A state with a valid wallet entered but nothing accrued. -/
def zeroAccruedState : MiningState :=
  { initState with customWallet := boatWallet }

/-- The system state after a stop click with outcome `o`, once React has
re-rendered and synchronised the polling effect. -/
def afterStop (o : ReqOutcome) (t : SysState) : SysState :=
  syncTimer { t with ctrl := applyUser (.clickStop o) t.ctrl }

/-! ### Claims -/

/-- C1: `deposit` accepts the wallet address iff it is 26-35 characters
long, starts with `1` or `3`, and consists of base58-safe characters
(the source regex equals the spec's rule); on every malformed address it
posts an error message and returns with no network request issued — a
pure local rejection. -/
theorem deposit_validation_iff_claim (s : MiningState) (o : DepositOutcome) :
    walletAddressRegex s.customWallet = claimValidAddress s.customWallet ∧
    (claimValidAddress s.customWallet = false →
      deposit o s =
        ({ s with message := some ⟨.error, "Invalid Bitcoin wallet address."⟩ }, [])) := by
  refine ⟨walletAddressRegex_eq_claim _, fun hbad => ?_⟩
  have hw : walletAddressRegex s.customWallet = false :=
    (walletAddressRegex_eq_claim _).trans hbad
  simp [deposit, hw]

/-- Witness for C1 at the empty address of the initial state. -/
theorem deposit_validation_iff_claim_witness :
    claimValidAddress initState.customWallet = false ∧
    deposit .transportError initState =
      ({ initState with message := some ⟨.error, "Invalid Bitcoin wallet address."⟩ }, []) :=
  ⟨by decide, (deposit_validation_iff_claim initState .transportError).2 (by decide)⟩

/-- C2: on a valid address, a deposit with an ok response resets
`totalMined` to 0 and posts the server message (or the default), while a
non-ok response or a transport error leaves `totalMined` unchanged and
posts an error message. -/
theorem deposit_outcome_totalMined (s : MiningState) (m1 m2 : Option String)
    (hv : walletAddressRegex s.customWallet = true) :
    ((deposit (.ok m1) s).1.totalMined = 0 ∧
      (deposit (.ok m1) s).1.message =
        some ⟨.success, m1.getD "Deposit successful."⟩) ∧
    ((deposit (.notOk m2) s).1.totalMined = s.totalMined ∧
      (deposit (.notOk m2) s).1.message =
        some ⟨.error, m2.getD "Deposit failed."⟩) ∧
    ((deposit .transportError s).1.totalMined = s.totalMined ∧
      (deposit .transportError s).1.message =
        some ⟨.error, "Error during deposit."⟩) := by
  simp [deposit, hv]

/-- Witness for C2: the spec's end-to-end scenario address with a
positive accrued total. -/
theorem deposit_outcome_totalMined_witness :
    walletAddressRegex sampleState.customWallet = true ∧
    (deposit (.ok (some "Deposit successful.")) sampleState).1.totalMined = 0 ∧
    (deposit (.notOk none) sampleState).1.totalMined = sampleState.totalMined :=
  ⟨by decide,
   (deposit_outcome_totalMined sampleState (some "Deposit successful.") none
      (by decide)).1.1,
   (deposit_outcome_totalMined sampleState (some "Deposit successful.") none
      (by decide)).2.1.1⟩

/-- C3: from `isMining = false`, a start with an ok response yields
`isMining = true` and a success message; a non-ok response or a
transport error leaves `isMining = false` and posts an error message. -/
theorem startMining_outcomes (s : MiningState) (hm : s.isMining = false) :
    ((startMining .ok s).1.isMining = true ∧
      (startMining .ok s).1.message = some ⟨.success, "Mining started."⟩) ∧
    ((startMining .notOk s).1.isMining = false ∧
      (startMining .notOk s).1.message =
        some ⟨.error, "Failed to start mining."⟩) ∧
    ((startMining .transportError s).1.isMining = false ∧
      (startMining .transportError s).1.message =
        some ⟨.error, "Error starting mining."⟩) := by
  simp [startMining, hm]

/-- Witness for C3 at the initial state. -/
theorem startMining_outcomes_witness :
    initState.isMining = false ∧
    (startMining .ok initState).1.isMining = true ∧
    (startMining .notOk initState).1.isMining = false :=
  ⟨rfl, (startMining_outcomes initState rfl).1.1,
    (startMining_outcomes initState rfl).2.1.1⟩

/-- C4: in every reachable system state the polling timer is live exactly
when the mounted component has `isMining` set, so `isMining = false`
implies no live timer, teardown implies no live timer, and no timer ever
outlives the flag. -/
theorem polling_timer_invariant (t : SysState) (h : Reachable t) :
    (t.ctrl.isMining = false → t.timerLive = false) ∧
    (t.tornDown = true → t.timerLive = false) ∧
    t.timerLive = (t.ctrl.isMining && !t.tornDown) := by
  have key := reachable_timer_eq t h
  refine ⟨fun hm => ?_, fun hd => ?_, key⟩
  · simp [key, hm]
  · simp [key, hd]

/-- Witness for C4 at the freshly mounted dashboard. -/
theorem polling_timer_invariant_witness :
    initSys.timerLive = (initSys.ctrl.isMining && !initSys.tornDown) :=
  (polling_timer_invariant initSys Relation.ReflTransGen.refl).2.2

/-- C5: a poll tick whose status request fails posts an error message but
leaves `progress`, `hashRate`, `totalMined` and `isMining` unchanged, the
timer stays live, and a further poll tick remains possible (polling
continues until an explicit stop). -/
theorem poll_failure_frame (t : SysState) (o : StatusOutcome)
    (hdown : t.tornDown = false) (hlive : t.timerLive = true)
    (ho : o = .notOk ∨ o = .transportError) :
    Step t { t with ctrl := (pollTick o t.ctrl).1 } ∧
    (pollTick o t.ctrl).1.progress = t.ctrl.progress ∧
    (pollTick o t.ctrl).1.hashRate = t.ctrl.hashRate ∧
    (pollTick o t.ctrl).1.totalMined = t.ctrl.totalMined ∧
    (pollTick o t.ctrl).1.isMining = t.ctrl.isMining ∧
    (∃ txt, (pollTick o t.ctrl).1.message = some ⟨.error, txt⟩) ∧
    ({ t with ctrl := (pollTick o t.ctrl).1 } : SysState).timerLive = true ∧
    (∀ o2 : StatusOutcome,
      Step { t with ctrl := (pollTick o t.ctrl).1 }
        { t with ctrl := (pollTick o2 (pollTick o t.ctrl).1).1 }) := by
  refine ⟨Step.tick o t hdown hlive, ?_, ?_, ?_, ?_, ?_, hlive, fun o2 => ?_⟩
  · rcases ho with h | h <;> subst h <;> rfl
  · rcases ho with h | h <;> subst h <;> rfl
  · rcases ho with h | h <;> subst h <;> rfl
  · rcases ho with h | h <;> subst h <;> rfl
  · rcases ho with h | h <;> subst h
    · exact ⟨"Failed to fetch mining status.", rfl⟩
    · exact ⟨"Error fetching mining status.", rfl⟩
  · exact Step.tick o2 { t with ctrl := (pollTick o t.ctrl).1 } hdown hlive

/-- Witness for C5: a failed tick on a live-timer state built over the
initial controller state with `isMining` set. -/
theorem poll_failure_frame_witness :
    (pollTick .notOk ({ initState with isMining := true })).1.totalMined =
      ({ initState with isMining := true } : MiningState).totalMined ∧
    ∃ txt,
      (pollTick .notOk ({ initState with isMining := true })).1.message =
        some ⟨.error, txt⟩ :=
  ⟨(poll_failure_frame
      ⟨{ initState with isMining := true }, true, false⟩ .notOk rfl rfl
      (Or.inl rfl)).2.2.2.1,
   (poll_failure_frame
      ⟨{ initState with isMining := true }, true, false⟩ .notOk rfl rfl
      (Or.inl rfl)).2.2.2.2.2.1⟩

/-- C6: every completed user action clears the in-flight `isLoading`
flag, whatever the outcome: `startMining` and `stopMining` always, and
`deposit` whenever the address passed validation. -/
theorem loading_flag_cleared (s : MiningState) (o1 o2 : ReqOutcome)
    (o3 : DepositOutcome) :
    (startMining o1 s).1.isLoading = false ∧
    (stopMining o2 s).1.isLoading = false ∧
    (walletAddressRegex s.customWallet = true →
      (deposit o3 s).1.isLoading = false) := by
  refine ⟨?_, ?_, fun hv => ?_⟩
  · cases o1 <;> rfl
  · cases o2 <;> rfl
  · cases o3 <;> simp [deposit, hv]

/-- Witness for C6 on the valid-wallet sample state. -/
theorem loading_flag_cleared_witness :
    (startMining .transportError sampleState).1.isLoading = false ∧
    (stopMining .notOk sampleState).1.isLoading = false ∧
    (deposit (.ok none) sampleState).1.isLoading = false :=
  ⟨(loading_flag_cleared sampleState .transportError .notOk (.ok none)).1,
   (loading_flag_cleared sampleState .transportError .notOk (.ok none)).2.1,
   (loading_flag_cleared sampleState .transportError .notOk (.ok none)).2.2
     (by decide)⟩

/-- C7: a start click while `isMining` or `isLoading` holds, and a stop
or deposit click while `isLoading` holds, change nothing and issue no
request — the disabled-button gate ignores the call rather than queuing
it. -/
theorem action_mutual_exclusion (s : MiningState) (o1 o2 : ReqOutcome)
    (o3 : DepositOutcome) :
    ((s.isMining = true ∨ s.isLoading = true) → clickStart o1 s = (s, [])) ∧
    (s.isLoading = true → clickStop o2 s = (s, [])) ∧
    (s.isLoading = true → clickDeposit o3 s = (s, [])) := by
  refine ⟨fun h => ?_, fun h => ?_, fun h => ?_⟩
  · rcases h with h | h <;> simp [clickStart, h]
  · simp [clickStop, h]
  · simp [clickDeposit, h]

/-- Witness for C7 on a state that is both mining and loading. -/
theorem action_mutual_exclusion_witness :
    clickStart .ok { initState with isMining := true, isLoading := true } =
      ({ initState with isMining := true, isLoading := true }, []) ∧
    clickStop .ok { initState with isMining := true, isLoading := true } =
      ({ initState with isMining := true, isLoading := true }, []) ∧
    clickDeposit .transportError
        { initState with isMining := true, isLoading := true } =
      ({ initState with isMining := true, isLoading := true }, []) :=
  ⟨(action_mutual_exclusion { initState with isMining := true, isLoading := true }
      .ok .ok .transportError).1 (Or.inl rfl),
   (action_mutual_exclusion { initState with isMining := true, isLoading := true }
      .ok .ok .transportError).2.1 rfl,
   (action_mutual_exclusion { initState with isMining := true, isLoading := true }
      .ok .ok .transportError).2.2 rfl⟩

/-- C8 counterexample: the `deposit` handler itself has no internal
`totalMined > 0` check — called directly on a state with `totalMined = 0`
and a valid address, it still issues a deposit request. -/
theorem deposit_without_accrual_issues_request :
    zeroAccruedState.totalMined = 0 ∧
    (deposit (.ok none) zeroAccruedState).2 =
      [MiningRequest.deposit boatWallet] := by
  exact ⟨rfl, by decide⟩

/-- C8 amended: only the UI boundary defends the `totalAccrued > 0`
precondition — a Deposit click with `totalMined ≤ 0` is ignored by the
disabled-button gate, changing nothing and issuing no request. -/
theorem deposit_ui_gate_only (s : MiningState) (o : DepositOutcome)
    (h : s.totalMined ≤ 0) :
    clickDeposit o s = (s, []) := by
  unfold clickDeposit
  rw [decide_eq_true h]
  simp

/-- Witness for the amended C8 on the zero-accrual state. -/
theorem deposit_ui_gate_only_witness :
    clickDeposit (.ok none) zeroAccruedState = (zeroAccruedState, []) :=
  deposit_ui_gate_only zeroAccruedState (.ok none) (by decide)

/-- C9: on a valid wallet address a single deposit invocation issues
exactly one network request, and that request carries the address. -/
theorem deposit_single_request (s : MiningState) (o : DepositOutcome)
    (hv : walletAddressRegex s.customWallet = true) :
    (deposit o s).2 = [MiningRequest.deposit s.customWallet] := by
  cases o <;> simp [deposit, hv]

/-- Witness for C9 at the spec's sample address. -/
theorem deposit_single_request_witness :
    (deposit (.ok none) sampleState).2 =
      [MiningRequest.deposit sampleState.customWallet] :=
  deposit_single_request sampleState (.ok none) (by decide)

/-- C10: when a stop request fails on a mounted, mining, idle state,
the resulting render leaves `isMining = true` and the polling timer
live, and poll ticks remain possible — the timer continues because the
active flag is unchanged. -/
theorem stop_failure_keeps_polling (t : SysState) (o : ReqOutcome)
    (hdown : t.tornDown = false) (hm : t.ctrl.isMining = true)
    (hl : t.ctrl.isLoading = false) (ho : o ≠ .ok) :
    Step t (afterStop o t) ∧
    (afterStop o t).ctrl.isMining = true ∧
    (afterStop o t).timerLive = true ∧
    (∀ o2 : StatusOutcome,
      Step (afterStop o t)
        { afterStop o t with ctrl := (pollTick o2 (afterStop o t).ctrl).1 }) := by
  have happly : applyUser (.clickStop o) t.ctrl = (stopMining o t.ctrl).1 := by
    simp [applyUser, clickStop, hm, hl]
  have hmine : (stopMining o t.ctrl).1.isMining = t.ctrl.isMining := by
    cases o with
    | ok => exact absurd rfl ho
    | notOk => rfl
    | transportError => rfl
  have hctrl : (afterStop o t).ctrl.isMining = true := by
    simp [afterStop, syncTimer, happly, hmine, hm]
  have hlive : (afterStop o t).timerLive = true := by
    simp [afterStop, syncTimer, happly, hmine, hm]
  have hdown2 : (afterStop o t).tornDown = false := by
    simp [afterStop, syncTimer, hdown]
  exact ⟨Step.user (.clickStop o) t hdown, hctrl, hlive,
    fun o2 => Step.tick o2 (afterStop o t) hdown2 hlive⟩

/-- Witness for C10: a failed stop on the mining, live-timer state. -/
theorem stop_failure_keeps_polling_witness :
    (afterStop .notOk ⟨{ initState with isMining := true }, true, false⟩).ctrl.isMining =
      true ∧
    (afterStop .notOk ⟨{ initState with isMining := true }, true, false⟩).timerLive =
      true :=
  ⟨(stop_failure_keeps_polling ⟨{ initState with isMining := true }, true, false⟩
      .notOk rfl rfl rfl (by decide)).2.1,
   (stop_failure_keeps_polling ⟨{ initState with isMining := true }, true, false⟩
      .notOk rfl rfl rfl (by decide)).2.2.1⟩

end Mining
